import Mathlib

/-!
Verification of the two Flask/psycopg2 applications (reddit and venmo):
the transactional session manager (`with_db_connection`, `get_db_connection`,
`close_db_connection`), the join-result aggregator of `get_all_post`, the
pagination arithmetic of `get_users`, and the individual route handlers.

The Python code is embedded shallowly: the mutable per-request objects
(connection, Flask `g`, the store behind the cursor) become explicit state
values threaded through the functions, and a handler that may raise becomes a
function returning a `HandlerOutcome` carrying either its response or the
raised exception's message.
-/

namespace App

/-! ## Result aggregator (`get_all_post`, src/reddit/src/app.py lines 98-125)

A `JoinRow` is one row of `SELECT p.id, p.upvotes, p.title, p.link, p.username,
c.id, c.upvotes, c.text, c.username FROM posts p LEFT JOIN comments c ...`.
The five post columns are non-null; the four comment columns are null on an
outer-join miss. -/

structure JoinRow where
  postId : Int
  postUpvotes : Int
  title : String
  link : String
  postUsername : String
  commentId : Option Int
  commentUpvotes : Option Int
  commentText : Option String
  commentUsername : Option String
  deriving DecidableEq

structure Comment where
  id : Int
  upvotes : Option Int
  text : Option String
  username : Option String
  deriving DecidableEq

structure Post where
  id : Int
  upvotes : Int
  title : String
  link : String
  username : String
  comments : List Comment
  deriving DecidableEq

/-- Python truthiness of the value in a nullable integer column:
`if row[5]:` is false when the value is SQL NULL (`None`) and also when it is
the integer `0`. -/
def truthyOptInt : Option Int → Bool
  | none => false
  | some n => n != 0

/-- Comment dictionary built at lines 114-119 from a row whose `row[5]` is
truthy; the `getD 0` default is never exercised at the call site because the
comment id is known to be present there. -/
def mkComment (r : JoinRow) : Comment :=
  { id := r.commentId.getD 0
    upvotes := r.commentUpvotes
    text := r.commentText
    username := r.commentUsername }

/-- Post dictionary created at lines 103-110 when `post_id` is first seen:
scalar fields from the current row, empty comment list. -/
def mkPost (r : JoinRow) : Post :=
  { id := r.postId
    upvotes := r.postUpvotes
    title := r.title
    link := r.link
    username := r.postUsername
    comments := [] }

/-- Appending the row's comment to the entry whose key is `row[0]`
(`posts_dict[post_id]["comments"].append(comment)`). -/
def addComment (r : JoinRow) (p : Post) : Post :=
  if p.id == r.postId then { p with comments := p.comments ++ [mkComment r] } else p

/-- Body of the `for row in rows` loop at lines 99-120. `posts_dict` is a
Python 3.7+ dict and hence preserves key insertion order, so it is embedded as
the list of its entries in insertion order. -/
def step (acc : List Post) (r : JoinRow) : List Post :=
  let acc1 := if acc.any (fun p => p.id == r.postId) then acc else acc ++ [mkPost r]
  if truthyOptInt r.commentId then acc1.map (addComment r) else acc1

/-- Whole aggregation loop of `get_all_post`: `list(posts_dict.values())`
after processing every row. -/
def aggregate (rows : List JoinRow) : List Post := rows.foldl step []

/-- Comments the loop accumulates for parent id `i`: one per row bearing that
id whose comment-id column is truthy, in row order. -/
def commentsFor (i : Int) (rows : List JoinRow) : List Comment :=
  (rows.filter (fun r => r.postId == i && truthyOptInt r.commentId)).map mkComment

/-- Ids of `rows` in order of first appearance, mirroring the insertion order
of `posts_dict` keys. -/
def firstSeenFrom (seen : List Int) : List Int → List Int
  | [] => seen
  | i :: l => firstSeenFrom (if seen.any (· == i) then seen else seen ++ [i]) l

def dedupFirst (l : List Int) : List Int := firstSeenFrom [] l

theorem addComment_id (r : JoinRow) (p : Post) : (addComment r p).id = p.id := by
  unfold addComment; split <;> rfl

theorem find?_map_addComment (r : JoinRow) (l : List Post) (i : Int) :
    (l.map (addComment r)).find? (fun p => p.id == i) =
      (l.find? (fun p => p.id == i)).map (addComment r) := by
  induction l with
  | nil => rfl
  | cons q l ih =>
    by_cases h : q.id == i
    · simp [List.find?, addComment_id, h]
    · simp [List.find?, addComment_id, h, ih]

theorem any_eq_isSome_find? (acc : List Post) (j : Int) :
    acc.any (fun p => p.id == j) = (acc.find? (fun p => p.id == j)).isSome := by
  induction acc with
  | nil => rfl
  | cons q l ih =>
    by_cases h : q.id == j
    · simp [List.find?, h]
    · simp [List.find?, h, ih]

/-- Effect of one loop iteration on the entry for the row's own parent id:
append the row's comment when the comment id is truthy, otherwise leave the
entry unchanged. -/
def updStep (r : JoinRow) (p : Post) : Post :=
  if truthyOptInt r.commentId then { p with comments := p.comments ++ [mkComment r] } else p

theorem find?_step (acc : List Post) (r : JoinRow) (i : Int) :
    (step acc r).find? (fun p => p.id == i) =
      if r.postId = i then
        some (updStep r ((acc.find? (fun p => p.id == i)).getD (mkPost r)))
      else acc.find? (fun p => p.id == i) := by
  unfold step
  by_cases hpi : r.postId = i
  · subst hpi
    simp only [if_true]
    by_cases hany : acc.any (fun p => p.id == r.postId) = true
    · have hs := hany
      rw [any_eq_isSome_find? acc r.postId] at hs
      obtain ⟨p, hp⟩ := Option.isSome_iff_exists.mp hs
      have hpid := List.find?_some hp
      rw [hp]
      simp only [hany, if_true]
      by_cases ht : truthyOptInt r.commentId
      · rw [if_pos ht, find?_map_addComment, hp]
        simp [addComment, updStep, hpid, ht]
      · rw [if_neg ht, hp]
        simp [updStep, ht]
    · have hs := hany
      rw [any_eq_isSome_find? acc r.postId] at hs
      have hnone : acc.find? (fun p => p.id == r.postId) = none := by
        cases h : acc.find? (fun p => p.id == r.postId) with
        | none => rfl
        | some q => rw [h] at hs; simp at hs
      rw [hnone]
      simp only [Bool.not_eq_true] at hany
      simp only [hany, Bool.false_eq_true, if_false]
      by_cases ht : truthyOptInt r.commentId
      · rw [if_pos ht, find?_map_addComment, List.find?_append, hnone]
        simp [List.find?, mkPost, addComment, updStep, ht]
      · rw [if_neg ht, List.find?_append, hnone]
        simp [List.find?, mkPost, updStep, ht]
  · rw [if_neg hpi]
    have hmk : ((mkPost r).id == i) = false := by
      simp [mkPost]
      exact hpi
    have hstep1 : (if acc.any (fun p => p.id == r.postId) then acc
        else acc ++ [mkPost r]).find? (fun p => p.id == i) =
        acc.find? (fun p => p.id == i) := by
      by_cases hany : acc.any (fun p => p.id == r.postId) = true
      · rw [if_pos hany]
      · simp only [Bool.not_eq_true] at hany
        rw [hany]
        simp only [Bool.false_eq_true, if_false, List.find?_append]
        simp [List.find?, hmk]
    by_cases ht : truthyOptInt r.commentId
    · rw [if_pos ht, find?_map_addComment, hstep1]
      cases hf : acc.find? (fun p => p.id == i) with
      | none => rfl
      | some p =>
        have hpid := List.find?_some hf
        have hpr : (p.id == r.postId) = false := by
          have : p.id = i := by simpa using hpid
          simp [this]
          intro h
          exact hpi h.symm
        simp [addComment, hpr]
    · rw [if_neg ht, hstep1]

theorem find?_foldl (rows : List JoinRow) (acc : List Post) (i : Int) :
    (rows.foldl step acc).find? (fun p => p.id == i) =
      match acc.find? (fun p => p.id == i) with
      | some p => some { p with comments := p.comments ++ commentsFor i rows }
      | none =>
        match rows.find? (fun r => r.postId == i) with
        | some r0 => some { mkPost r0 with comments := commentsFor i rows }
        | none => none := by
  induction rows generalizing acc with
  | nil =>
    cases hacc : acc.find? (fun p => p.id == i) <;> simp [commentsFor, hacc]
  | cons r rest ih =>
    rw [List.foldl_cons, ih (step acc r), find?_step]
    by_cases hpi : r.postId = i
    · rw [if_pos hpi]
      have hfilter : (r :: rest).filter (fun q => q.postId == i && truthyOptInt q.commentId) =
          if truthyOptInt r.commentId then
            r :: rest.filter (fun q => q.postId == i && truthyOptInt q.commentId)
          else rest.filter (fun q => q.postId == i && truthyOptInt q.commentId) := by
        by_cases ht : truthyOptInt r.commentId <;>
          simp [List.filter_cons, hpi, ht]
      cases hacc : acc.find? (fun p => p.id == i) with
      | some p =>
        by_cases ht : truthyOptInt r.commentId <;>
          simp [updStep, ht, commentsFor, hfilter]
      | none =>
        have hr : (r :: rest).find? (fun q => q.postId == i) = some r := by
          simp [List.find?, hpi]
        rw [hr]
        by_cases ht : truthyOptInt r.commentId <;>
          simp [updStep, ht, commentsFor, hfilter, mkPost]
    · rw [if_neg hpi]
      have hfilter : (r :: rest).filter (fun q => q.postId == i && truthyOptInt q.commentId) =
          rest.filter (fun q => q.postId == i && truthyOptInt q.commentId) := by
        simp [List.filter_cons, hpi]
      have hfind : (r :: rest).find? (fun q => q.postId == i) =
          rest.find? (fun q => q.postId == i) := by
        have hb : (r.postId == i) = false := by simp [hpi]
        simp [List.find?, hb]
      cases hacc : acc.find? (fun p => p.id == i) with
      | some p => simp [commentsFor, hfilter]
      | none => rw [hfind]; simp [commentsFor, hfilter]

theorem find?_aggregate (rows : List JoinRow) (i : Int) :
    (aggregate rows).find? (fun p => p.id == i) =
      match rows.find? (fun r => r.postId == i) with
      | some r0 => some { mkPost r0 with comments := commentsFor i rows }
      | none => none := by
  have h := find?_foldl rows [] i
  simpa [aggregate, List.find?] using h

theorem step_ids (acc : List Post) (r : JoinRow) :
    (step acc r).map (fun p => p.id) =
      if (acc.map (fun p => p.id)).any (· == r.postId) then acc.map (fun p => p.id)
      else acc.map (fun p => p.id) ++ [r.postId] := by
  unfold step
  have hany : acc.any (fun p => p.id == r.postId) =
      (acc.map (fun p => p.id)).any (· == r.postId) := by
    induction acc with
    | nil => rfl
    | cons q l ih => simp [List.any, ih]
  have hmapids : ∀ l : List Post, (l.map (addComment r)).map (fun p => p.id) =
      l.map (fun p => p.id) := by
    intro l
    rw [List.map_map]
    exact List.map_congr_left (fun p _ => addComment_id r p)
  rw [← hany]
  by_cases h : acc.any (fun p => p.id == r.postId) = true
  · rw [if_pos h, if_pos h]
    by_cases ht : truthyOptInt r.commentId
    · rw [if_pos ht, hmapids]
    · rw [if_neg ht]
  · simp only [Bool.not_eq_true] at h
    rw [h]
    simp only [Bool.false_eq_true, if_false]
    by_cases ht : truthyOptInt r.commentId
    · rw [if_pos ht, hmapids]
      simp [mkPost]
    · rw [if_neg ht]
      simp [mkPost]

theorem foldl_ids (rows : List JoinRow) (acc : List Post) :
    (rows.foldl step acc).map (fun p => p.id) =
      firstSeenFrom (acc.map (fun p => p.id)) (rows.map (fun r => r.postId)) := by
  induction rows generalizing acc with
  | nil => rfl
  | cons r rest ih =>
    rw [List.foldl_cons, ih (step acc r), List.map_cons, firstSeenFrom, step_ids]

theorem aggregate_ids (rows : List JoinRow) :
    (aggregate rows).map (fun p => p.id) = dedupFirst (rows.map (fun r => r.postId)) :=
  foldl_ids rows []

theorem mem_firstSeenFrom (l : List Int) (seen : List Int) (a : Int) :
    a ∈ firstSeenFrom seen l ↔ a ∈ seen ∨ a ∈ l := by
  induction l generalizing seen with
  | nil => simp [firstSeenFrom]
  | cons i l ih =>
    rw [firstSeenFrom]
    by_cases h : seen.any (· == i) = true
    · have hi : i ∈ seen := by
        obtain ⟨x, hx, hxe⟩ := List.any_eq_true.mp h
        have : x = i := by simpa using hxe
        exact this ▸ hx
      rw [if_pos h, ih]
      constructor
      · rintro (hs | hl)
        · exact Or.inl hs
        · exact Or.inr (List.mem_cons_of_mem _ hl)
      · rintro (hs | hl)
        · exact Or.inl hs
        · rcases List.mem_cons.mp hl with he | hl
          · exact Or.inl (he ▸ hi)
          · exact Or.inr hl
    · simp only [Bool.not_eq_true] at h
      rw [h]
      simp only [Bool.false_eq_true, if_false, ih, List.mem_append, List.mem_cons,
        List.mem_singleton]
      tauto

theorem nodup_firstSeenFrom (l : List Int) (seen : List Int) (h : seen.Nodup) :
    (firstSeenFrom seen l).Nodup := by
  induction l generalizing seen with
  | nil => exact h
  | cons i l ih =>
    rw [firstSeenFrom]
    by_cases hi : seen.any (· == i) = true
    · rw [if_pos hi]; exact ih seen h
    · simp only [Bool.not_eq_true] at hi
      rw [hi]
      simp only [Bool.false_eq_true, if_false]
      apply ih
      have hnotmem : i ∉ seen := by
        intro hmem
        have : seen.any (· == i) = true := List.any_eq_true.mpr ⟨i, hmem, by simp⟩
        rw [hi] at this
        exact Bool.false_ne_true this
      simp [List.nodup_append, h, hnotmem]

theorem aggregate_ids_nodup (rows : List JoinRow) :
    ((aggregate rows).map (fun p => p.id)).Nodup := by
  rw [aggregate_ids]
  exact nodup_firstSeenFrom _ [] (by simp)

theorem find?_eq_of_mem_keyed (l : List Post) (h : (l.map (fun p => p.id)).Nodup)
    (p : Post) (hp : p ∈ l) : l.find? (fun q => q.id == p.id) = some p := by
  induction l with
  | nil => cases hp
  | cons q l ih =>
    rcases List.mem_cons.mp hp with he | hm
    · subst he
      simp [List.find?]
    · have hq : (q.id == p.id) = false := by
        have hpin : p.id ∈ l.map (fun p => p.id) := List.mem_map_of_mem _ hm
        have hqnot : q.id ∉ l.map (fun p => p.id) := by
          rw [List.map_cons] at h
          exact (List.nodup_cons.mp h).1
        simp only [beq_eq_false_iff_ne, ne_eq]
        intro he
        exact hqnot (he ▸ hpin)
      rw [List.find?_cons_of_neg _ (by simp [hq])]
      have htl : (l.map (fun p => p.id)).Nodup := by
        rw [List.map_cons] at h
        exact (List.nodup_cons.mp h).2
      exact ih htl hm

/-- Every post in the aggregation output is built from the first row bearing
its id, with exactly the comments of that id's truthy-comment rows. -/
theorem mem_aggregate (rows : List JoinRow) (p : Post) (hp : p ∈ aggregate rows) :
    ∃ r0, rows.find? (fun r => r.postId == p.id) = some r0 ∧
      p = { mkPost r0 with comments := commentsFor p.id rows } := by
  have hfind := find?_eq_of_mem_keyed (aggregate rows) (aggregate_ids_nodup rows) p hp
  have hagg := find?_aggregate rows p.id
  rw [hfind] at hagg
  cases hr : rows.find? (fun r => r.postId == p.id) with
  | none => rw [hr] at hagg; exact absurd hagg (by simp)
  | some r0 =>
    rw [hr] at hagg
    refine ⟨r0, rfl, ?_⟩
    simpa using hagg

theorem length_dedupFirst (l : List Int) : (dedupFirst l).length = l.dedup.length := by
  have h1 : (dedupFirst l).Nodup := nodup_firstSeenFrom l [] (by simp)
  have h2 : l.dedup.Nodup := l.nodup_dedup
  have hsub1 : dedupFirst l ⊆ l.dedup := by
    intro a ha
    rw [List.mem_dedup]
    have := (mem_firstSeenFrom l [] a).mp ha
    simpa using this
  have hsub2 : l.dedup ⊆ dedupFirst l := by
    intro a ha
    rw [List.mem_dedup] at ha
    exact (mem_firstSeenFrom l [] a).mpr (Or.inr ha)
  exact le_antisymm (h1.subperm hsub1).length_le (h2.subperm hsub2).length_le

/-! ### Claims about the aggregator -/

/-- Row whose comment-id column holds the integer 0: non-null, yet falsy in
Python, so `if row[5]:` skips it. -/
def c1badrow : JoinRow :=
  { postId := 1, postUpvotes := 0, title := "t", link := "l", postUsername := "u"
    commentId := some 0, commentUpvotes := some 0
    commentText := some "x", commentUsername := some "y" }

/-- C1 fails as stated: on the single row `c1badrow`, whose comment id is the
non-null integer 0, the aggregation returns the right number of parents (one)
but gives that parent 0 comments even though 1 row for that parent id has a
non-null child id, because `if row[5]:` tests Python truthiness, which 0
fails. -/
theorem C1_counterexample :
    ([c1badrow].filter (fun r => r.commentId.isSome)).length = 1 ∧
    (aggregate [c1badrow]).length = 1 ∧
    (aggregate [c1badrow]).map (fun p => p.comments.length) = [0] := by
  decide

/-- C1 (amended): for every sequence of JoinRows, `aggregate` returns exactly
one parent object per distinct parent id, and each parent's comment list
length equals the number of rows for that parent id whose comment-id column is
truthy, i.e. non-null and non-zero (rows with a null or zero comment id append
no comment). -/
theorem C1_aggregate_counts (rows : List JoinRow) :
    (aggregate rows).length = ((rows.map (fun r => r.postId)).dedup).length ∧
    ∀ p ∈ aggregate rows,
      p.comments.length =
        (rows.filter (fun r => r.postId == p.id && truthyOptInt r.commentId)).length := by
  constructor
  · have h := congrArg List.length (aggregate_ids rows)
    rw [List.length_map] at h
    rw [h, length_dedupFirst]
  · intro p hp
    obtain ⟨r0, _, hpe⟩ := mem_aggregate rows p hp
    have hcom : p.comments = commentsFor p.id rows := by
      have h := congrArg Post.comments hpe
      simpa using h
    rw [hcom]
    simp [commentsFor]

def c1wrows : List JoinRow :=
  [{ postId := 1, postUpvotes := 7, title := "t1", link := "l1", postUsername := "u1"
     commentId := some 11, commentUpvotes := some 2
     commentText := some "c1", commentUsername := some "v1" },
   { postId := 1, postUpvotes := 7, title := "t1", link := "l1", postUsername := "u1"
     commentId := some 12, commentUpvotes := some 3
     commentText := some "c2", commentUsername := some "v2" },
   { postId := 2, postUpvotes := 5, title := "t2", link := "l2", postUsername := "u2"
     commentId := none, commentUpvotes := none
     commentText := none, commentUsername := none }]

def c1wpost : Post :=
  { id := 1, upvotes := 7, title := "t1", link := "l1", username := "u1"
    comments := [{ id := 11, upvotes := some 2, text := some "c1", username := some "v1" },
                 { id := 12, upvotes := some 3, text := some "c2", username := some "v2" }] }

theorem C1_witness :
    (aggregate c1wrows).length = ((c1wrows.map (fun r => r.postId)).dedup).length ∧
    c1wpost.comments.length =
      (c1wrows.filter (fun r => r.postId == c1wpost.id && truthyOptInt r.commentId)).length :=
  ⟨(C1_aggregate_counts c1wrows).1, (C1_aggregate_counts c1wrows).2 c1wpost (by decide)⟩

/-- C7: the aggregation output lists parents in first-appearance order of
their ids and each parent's comments in the order that parent's
truthy-comment rows appear in the input; nothing is sorted. -/
theorem C7_aggregate_order (rows : List JoinRow) :
    (aggregate rows).map (fun p => p.id) = dedupFirst (rows.map (fun r => r.postId)) ∧
    ∀ p ∈ aggregate rows,
      p.comments =
        (rows.filter (fun r => r.postId == p.id && truthyOptInt r.commentId)).map mkComment := by
  refine ⟨aggregate_ids rows, ?_⟩
  intro p hp
  obtain ⟨r0, _, hpe⟩ := mem_aggregate rows p hp
  have hcom : p.comments = commentsFor p.id rows := by
    have h := congrArg Post.comments hpe
    simpa using h
  rw [hcom]
  rfl

def c7wrows : List JoinRow :=
  [{ postId := 3, postUpvotes := 1, title := "a", link := "x", postUsername := "m"
     commentId := some 21, commentUpvotes := some 0
     commentText := some "j", commentUsername := some "k" },
   { postId := 4, postUpvotes := 2, title := "b", link := "y", postUsername := "n"
     commentId := none, commentUpvotes := none
     commentText := none, commentUsername := none },
   { postId := 3, postUpvotes := 1, title := "a", link := "x", postUsername := "m"
     commentId := some 22, commentUpvotes := some 9
     commentText := some "q", commentUsername := some "w" }]

def c7wpost : Post :=
  { id := 3, upvotes := 1, title := "a", link := "x", username := "m"
    comments := [{ id := 21, upvotes := some 0, text := some "j", username := some "k" },
                 { id := 22, upvotes := some 9, text := some "q", username := some "w" }] }

theorem C7_witness :
    (aggregate c7wrows).map (fun p => p.id) = dedupFirst (c7wrows.map (fun r => r.postId)) ∧
    c7wpost.comments =
      (c7wrows.filter (fun r => r.postId == c7wpost.id && truthyOptInt r.commentId)).map
        mkComment :=
  ⟨(C7_aggregate_order c7wrows).1, (C7_aggregate_order c7wrows).2 c7wpost (by decide)⟩

/-- C9: the scalar fields of every parent in the aggregation output are taken
from the first input row bearing that parent id; the parent columns of later
rows with the same id never influence the output. -/
theorem C9_parent_fields_from_first_row (rows : List JoinRow) (p : Post)
    (hp : p ∈ aggregate rows) (r0 : JoinRow)
    (hr : rows.find? (fun r => r.postId == p.id) = some r0) :
    p.upvotes = r0.postUpvotes ∧ p.title = r0.title ∧ p.link = r0.link ∧
      p.username = r0.postUsername := by
  obtain ⟨r1, hr1, hpe⟩ := mem_aggregate rows p hp
  rw [hr] at hr1
  cases Option.some.inj hr1
  have h1 := congrArg Post.upvotes hpe
  have h2 := congrArg Post.title hpe
  have h3 := congrArg Post.link hpe
  have h4 := congrArg Post.username hpe
  simp [mkPost] at h1 h2 h3 h4
  exact ⟨h1, h2, h3, h4⟩

def c9wrows : List JoinRow :=
  [{ postId := 6, postUpvotes := 7, title := "first", link := "lf", postUsername := "uf"
     commentId := none, commentUpvotes := none
     commentText := none, commentUsername := none },
   { postId := 6, postUpvotes := 99, title := "second", link := "ls", postUsername := "us"
     commentId := some 4, commentUpvotes := some 1
     commentText := some "c", commentUsername := some "v" }]

def c9wpost : Post :=
  { id := 6, upvotes := 7, title := "first", link := "lf", username := "uf"
    comments := [{ id := 4, upvotes := some 1, text := some "c", username := some "v" }] }

def c9wrow : JoinRow :=
  { postId := 6, postUpvotes := 7, title := "first", link := "lf", postUsername := "uf"
    commentId := none, commentUpvotes := none
    commentText := none, commentUsername := none }

theorem C9_witness :
    c9wpost.upvotes = c9wrow.postUpvotes ∧ c9wpost.title = c9wrow.title ∧
    c9wpost.link = c9wrow.link ∧ c9wpost.username = c9wrow.postUsername :=
  C9_parent_fields_from_first_row c9wrows c9wpost (by decide) c9wrow (by decide)

/-! ## Transactional session manager
(`with_db_connection`, `get_db_connection`, `close_db_connection`,
src/reddit/src/app.py lines 18-77; the venmo file repeats them verbatim)

The mutable objects are made explicit:
- `PgConn σ` is a psycopg2 connection over a store of type `σ`: `committed` is
  what the database has durably applied, `pending` is the state the open
  transaction sees, `closed`/`closeCount` record the `close()` calls that were
  issued on the object.
- `GState σ` is Flask's per-request `g`: the cached connection plus an
  instrumentation counter of how many underlying connections were opened.
- a handler body that may raise is a function `σ → HandlerOutcome × σ`
  returning either its response or the raised exception's message, together
  with the transaction state at the moment it returned or raised. -/

structure HttpResponse where
  body : List (String × String)
  status : Nat
  deriving DecidableEq

inductive HandlerOutcome where
  | response : HttpResponse → HandlerOutcome
  | raised : String → HandlerOutcome
  deriving DecidableEq

structure PgConn (σ : Type) where
  committed : σ
  pending : σ
  closed : Bool
  closeCount : Nat
  deriving DecidableEq

/-- psycopg2.connect: a fresh connection whose transaction sees the durable
state. -/
def PgConn.connect {σ : Type} (s : σ) : PgConn σ :=
  { committed := s, pending := s, closed := false, closeCount := 0 }

/-- conn.commit(): make the pending effects durable. -/
def PgConn.commit {σ : Type} (c : PgConn σ) : PgConn σ :=
  { c with committed := c.pending }

/-- conn.rollback(): discard the pending effects. -/
def PgConn.rollback {σ : Type} (c : PgConn σ) : PgConn σ :=
  { c with pending := c.committed }

/-- conn.close(): psycopg2 marks the connection closed; closing an already
closed connection is a no-op on its state. `closeCount` counts the
invocations. -/
def PgConn.close {σ : Type} (c : PgConn σ) : PgConn σ :=
  { c with closed := true, closeCount := c.closeCount + 1 }

structure GState (σ : Type) where
  conn : Option (PgConn σ)
  opened : Nat
  deriving DecidableEq

/-- Embedding of `get_db_connection` (lines 47-70): return the request's cached connection
if `g` has one, otherwise connect. `connectOk` stands for whether
`psycopg2.connect` succeeds; on an `OperationalError` the function returns
`None` instead of raising (lines 67-69), leaving `g` unchanged. Returns the
connection handed to the caller together with the updated `g`. -/
def get_db_connection {σ : Type} (connectOk : Bool) (s : σ) (g : GState σ) :
    Option (PgConn σ) × GState σ :=
  match g.conn with
  | some c => (some c, g)
  | none =>
    if connectOk then
      let c := PgConn.connect s
      (some c, { conn := some c, opened := g.opened + 1 })
    else (none, g)

structure DecoratedResult (σ : Type) where
  response : HttpResponse
  g : GState σ
  cursorClosed : Bool
  deriving DecidableEq

/-- Embedding of `decorated_function` inside `with_db_connection` (lines 28-42): acquire
the connection (500 if that fails), open a cursor, run the handler, commit on
normal return or roll back on an exception and answer
`{"error": str(e)}, 500`, and in both cases close the cursor and the
connection in the `finally` block. Because the local `conn` and `g.conn` alias
the same object in Python, the mutated connection is written back into `g`. -/
def decorated_function {σ : Type} (connectOk : Bool)
    (f : σ → HandlerOutcome × σ) (s : σ) (g0 : GState σ) : DecoratedResult σ :=
  match get_db_connection connectOk s g0 with
  | (none, g1) =>
    { response := { body := [("error", "Could not connect to the database")], status := 500 }
      g := g1, cursorClosed := false }
  | (some conn, g1) =>
    match f conn.pending with
    | (.response r, pending1) =>
      let conn1 := { conn with pending := pending1 }
      { response := r
        g := { g1 with conn := some conn1.commit.close }
        cursorClosed := true }
    | (.raised msg, pending1) =>
      let conn1 := { conn with pending := pending1 }
      { response := { body := [("error", msg)], status := 500 }
        g := { g1 with conn := some conn1.rollback.close }
        cursorClosed := true }

/-- Embedding of `close_db_connection` (lines 73-77), the `teardown_appcontext` hook: pop
the connection out of `g` and close it when present. Returns the popped
connection for observation. -/
def close_db_connection {σ : Type} (g : GState σ) : GState σ × Option (PgConn σ) :=
  match g.conn with
  | some c => ({ g with conn := none }, some c.close)
  | none => ({ g with conn := none }, none)

structure RequestResult (σ : Type) where
  response : HttpResponse
  cursorClosed : Bool
  finalConn : Option (PgConn σ)
  g : GState σ
  deriving DecidableEq

/-- Whole lifetime of one request against a decorated route: `g` starts empty,
the decorated handler runs, and the app-context teardown hook fires at the
end. -/
def handle_request {σ : Type} (connectOk : Bool)
    (f : σ → HandlerOutcome × σ) (s : σ) : RequestResult σ :=
  let d := decorated_function connectOk f s { conn := none, opened := 0 }
  let t := close_db_connection d.g
  { response := d.response, cursorClosed := d.cursorClosed, finalConn := t.2, g := t.1 }

/-! ### Claims about the session manager -/

/-- C2: for every unit of work run through `with_db_connection` on a fresh
request (a fresh `g`): if the work raises, the transaction is rolled back —
the committed state is the original one and no pending effect survives — and
the generic failure body `{"error": message}` with status 500 is returned; if
the work returns normally, its pending effects are committed and its own
response is returned; in both cases the cursor is closed and the connection is
closed. -/
theorem C2_unit_of_work (σ : Type) (f : σ → HandlerOutcome × σ) (s : σ)
    (g0 : GState σ) (hg : g0.conn = none) :
    (∀ msg s1, f s = (.raised msg, s1) →
      (decorated_function true f s g0).response =
          { body := [("error", msg)], status := 500 } ∧
      ((decorated_function true f s g0).g.conn.map (fun c => c.committed)) = some s ∧
      ((decorated_function true f s g0).g.conn.map (fun c => c.pending)) = some s) ∧
    (∀ r s1, f s = (.response r, s1) →
      (decorated_function true f s g0).response = r ∧
      ((decorated_function true f s g0).g.conn.map (fun c => c.committed)) = some s1) ∧
    (decorated_function true f s g0).cursorClosed = true ∧
    ((decorated_function true f s g0).g.conn.map (fun c => c.closed)) = some true := by
  have hget : get_db_connection true s g0 = (some (PgConn.connect s),
      { conn := some (PgConn.connect s), opened := g0.opened + 1 }) := by
    unfold get_db_connection
    rw [hg]
    rfl
  refine ⟨?_, ?_, ?_, ?_⟩
  · intro msg s1 hf
    unfold decorated_function
    rw [hget]
    simp [hf, PgConn.connect, PgConn.rollback, PgConn.close]
  · intro r s1 hf
    unfold decorated_function
    rw [hget]
    simp [hf, PgConn.connect, PgConn.commit, PgConn.close]
  · unfold decorated_function
    rw [hget]
    rcases hf : f s with ⟨o, s1⟩
    cases o <;> simp [PgConn.connect, hf]
  · unfold decorated_function
    rw [hget]
    rcases hf : f s with ⟨o, s1⟩
    cases o <;> simp [PgConn.connect, hf, PgConn.close, PgConn.commit, PgConn.rollback]

def c2okWork : Nat → HandlerOutcome × Nat :=
  fun n => (.response { body := [("message", "ok")], status := 200 }, n + 1)

def c2badWork : Nat → HandlerOutcome × Nat :=
  fun n => (.raised "boom", n + 1)

theorem C2_witness :
    ((decorated_function true c2badWork 0 { conn := none, opened := 0 }).response =
        { body := [("error", "boom")], status := 500 } ∧
      ((decorated_function true c2badWork 0
          { conn := none, opened := 0 }).g.conn.map (fun c => c.committed)) = some 0) ∧
    ((decorated_function true c2okWork 0 { conn := none, opened := 0 }).response =
        { body := [("message", "ok")], status := 200 } ∧
      ((decorated_function true c2okWork 0
          { conn := none, opened := 0 }).g.conn.map (fun c => c.committed)) = some 1) ∧
    (decorated_function true c2okWork 0 { conn := none, opened := 0 }).cursorClosed = true :=
  ⟨⟨((C2_unit_of_work Nat c2badWork 0 { conn := none, opened := 0 } rfl).1 "boom" 1 rfl).1,
    ((C2_unit_of_work Nat c2badWork 0 { conn := none, opened := 0 } rfl).1 "boom" 1 rfl).2.1⟩,
   ⟨((C2_unit_of_work Nat c2okWork 0 { conn := none, opened := 0 } rfl).2.1
        { body := [("message", "ok")], status := 200 } 1 rfl).1,
    ((C2_unit_of_work Nat c2okWork 0 { conn := none, opened := 0 } rfl).2.1
        { body := [("message", "ok")], status := 200 } 1 rfl).2⟩,
   (C2_unit_of_work Nat c2okWork 0 { conn := none, opened := 0 } rfl).2.2.1⟩

/-- C6 fails as stated: on a request whose handler simply succeeds, the
underlying connection's `close()` is invoked twice, not exactly once — once by
the decorator's `finally` block and a second time by the
`teardown_appcontext` hook, which still finds the connection in `g`. -/
theorem C6_counterexample :
    ((handle_request true c2okWork (0 : Nat)).finalConn.map (fun c => c.closeCount)) =
        some 2 ∧
    ((handle_request true c2okWork (0 : Nat)).finalConn.map (fun c => c.closeCount)) ≠
        some 1 := by
  decide

/-- C6 (amended): for every acquired session the release operation is invoked
at least once — in fact exactly twice, once by the decorator's `finally` and
once by the app-context teardown; the second call hits an already-closed
connection, on which `close()` is a no-op. A request whose connection attempt
fails acquires no session and closes nothing. -/
theorem C6_close_exactly_twice (σ : Type) (f : σ → HandlerOutcome × σ) (s : σ) :
    ((handle_request true f s).finalConn.map (fun c => c.closeCount)) = some 2 ∧
    ((handle_request true f s).finalConn.map (fun c => c.closed)) = some true ∧
    (handle_request false f s).finalConn = none := by
  refine ⟨?_, ?_, ?_⟩ <;>
    · unfold handle_request decorated_function get_db_connection close_db_connection
      rcases hf : f s with ⟨o, s1⟩
      cases o <;> simp [hf, PgConn.connect, PgConn.commit, PgConn.rollback, PgConn.close]

/-- C8: within one request, acquiring a session is idempotent — the first
`get_db_connection` on an empty `g` opens one new underlying connection and
caches it, any later call returns that same cached connection and opens
nothing, and a failed connection attempt yields `none` (a failure signal, not
an exception) and leaves `g` untouched. -/
theorem C8_acquire_idempotent (σ : Type) (g : GState σ) (s s2 : σ) :
    (g.conn = none →
      get_db_connection true s g =
        (some (PgConn.connect s), { conn := some (PgConn.connect s), opened := g.opened + 1 })) ∧
    (∀ c, g.conn = some c → ∀ ok : Bool, get_db_connection ok s2 g = (some c, g)) ∧
    (g.conn = none → get_db_connection false s g = (none, g)) ∧
    (∀ c g1, get_db_connection true s g = (some c, g1) →
      get_db_connection true s2 g1 = (some c, g1)) := by
  refine ⟨?_, ?_, ?_, ?_⟩
  · intro hg
    unfold get_db_connection
    rw [hg]
    rfl
  · intro c hg ok
    unfold get_db_connection
    rw [hg]
  · intro hg
    unfold get_db_connection
    rw [hg]
    rfl
  · intro c g1 h1
    unfold get_db_connection at h1
    cases hg : g.conn with
    | some c0 =>
      rw [hg] at h1
      simp only [] at h1
      injection h1 with h1a h1b
      injection h1a with h1c
      subst h1c
      subst h1b
      unfold get_db_connection
      rw [hg]
    | none =>
      rw [hg] at h1
      simp only [if_true] at h1
      injection h1 with h1a h1b
      injection h1a with h1c
      subst h1c
      subst h1b
      unfold get_db_connection
      rfl

def c8conn : PgConn Nat := PgConn.connect 5

theorem C8_witness :
    get_db_connection true 5 { conn := none, opened := 0 } =
      (some (PgConn.connect 5), { conn := some (PgConn.connect 5), opened := 1 }) ∧
    get_db_connection true 7 { conn := some c8conn, opened := 1 } =
      (some c8conn, { conn := some c8conn, opened := 1 }) ∧
    get_db_connection false 5 { conn := none, opened := 0 } =
      (none, { conn := none, opened := 0 }) :=
  ⟨(C8_acquire_idempotent Nat { conn := none, opened := 0 } 5 7).1 rfl,
   (C8_acquire_idempotent Nat { conn := some c8conn, opened := 1 } 9 7).2.1 c8conn rfl true,
   (C8_acquire_idempotent Nat { conn := none, opened := 0 } 5 7).2.2.1 rfl⟩

/-! ## The reddit store and its route handlers

The store behind the cursor is the two relations plus the serial-id counters
the INSERT statements draw from; `execs` counts the store statements the
request has executed, so "the request never reached the store" is
`execs` unchanged (equivalently, the whole store value unchanged). -/

structure PostRow where
  id : Int
  upvotes : Int
  title : String
  link : String
  username : String
  deriving DecidableEq

structure CommentRow where
  id : Int
  post_id : Int
  upvotes : Int
  text : String
  username : String
  deriving DecidableEq

structure Store where
  posts : List PostRow
  comments : List CommentRow
  nextPostId : Int
  nextCommentId : Int
  execs : Nat
  deriving DecidableEq

/-- Whitespace removal from the front of a character list. -/
def dropLeadingWs : List Char → List Char
  | [] => []
  | c :: cs => if c.isWhitespace then dropLeadingWs cs else c :: cs

/-- Python `str.strip()`, whitespace removal at both ends. -/
def pyStrip (s : String) : String :=
  ⟨(dropLeadingWs (dropLeadingWs s.data).reverse).reverse⟩

/-- Python truthiness of an optional string: `None` and `""` are falsy. -/
def pyTruthyStr : Option String → Bool
  | none => false
  | some t => t != ""

/-- Message of the exception Python raises when `.strip()` is called on the
`None` that `post_data.get(...)` returns for an absent key. -/
def noneStripMsg : String := "AttributeError: NoneType object has no attribute strip"

/-- Embedding of `create_post` (lines 133-163). Line 136 calls `.strip()` on the result of
each `get`, left to right, so an absent field raises before the emptiness
check; present fields are stripped and line 137 rejects empty ones with a 400.
Otherwise the INSERT runs; `RETURNING id, upvotes` yields the fresh serial id
and the column default 0, so the `new_post_data is None or len < 2` guard at
line 147 never fires, and the 201 body echoes the new post (nested JSON
rendered here as dotted keys with numbers in decimal). -/
def create_post (body_title body_username body_link : Option String) (s : Store) :
    HandlerOutcome × Store :=
  match body_title with
  | none => (.raised noneStripMsg, s)
  | some t0 =>
    match body_username with
    | none => (.raised noneStripMsg, s)
    | some u0 =>
      match body_link with
      | none => (.raised noneStripMsg, s)
      | some l0 =>
        let title := pyStrip t0
        let username := pyStrip u0
        let link := pyStrip l0
        if title = "" || username = "" || link = "" then
          (.response { body := [("error", "Title, link, username are required")]
                       status := 400 }, s)
        else
          let newId := s.nextPostId
          let s1 := { s with posts := s.posts ++ [{ id := newId, upvotes := 0, title := title,
                                                    link := link, username := username }]
                             nextPostId := s.nextPostId + 1
                             execs := s.execs + 1 }
          (.response { body := [("post.id", toString newId), ("post.upvotes", "0"),
                                ("post.title", title), ("post.username", username),
                                ("post.link", link)]
                       status := 201 }, s1)

/-- Message of the exception psycopg2 raises when `cursor.execute` is handed
a bare int instead of a parameter sequence. -/
def intParamsTypeMsg : String := "TypeError: int object does not support indexing"

/-- Embedding of `delete_post` (lines 214-221). Line 215 passes `(post_id)` —
a parenthesised int, NOT the one-tuple `(post_id,)` — as the vars argument of
`cursor.execute`; psycopg2 requires a sequence or mapping there and raises a
TypeError client-side before sending any statement, so the DELETE never
executes, the store is untouched, and the `rowcount` check with its 404/200
responses at lines 218-221 is unreachable. -/
def delete_post (post_id : Int) (s : Store) : HandlerOutcome × Store :=
  (.raised intParamsTypeMsg, s)

/-- Embedding of `post_comment` (lines 251-269): truthiness check on `text` and `username`
(no strip), then INSERT RETURNING the fresh serial comment id; `if
new_comment_id:` is again a truthiness test, so a zero id would fall into the
500 branch. -/
def post_comment (post_id : Int) (text username : Option String) (s : Store) :
    HandlerOutcome × Store :=
  if !(pyTruthyStr text) || !(pyTruthyStr username) then
    (.response { body := [("error", "Text, or username field not provided")], status := 400 }, s)
  else
    let t := text.getD ""
    let u := username.getD ""
    let newId := s.nextCommentId
    let s1 := { s with comments := s.comments ++ [{ id := newId, post_id := post_id,
                                                    upvotes := 0, text := t, username := u }]
                       nextCommentId := s.nextCommentId + 1
                       execs := s.execs + 1 }
    if newId != 0 then
      (.response { body := [("id", toString newId), ("post_id", toString post_id),
                            ("upvotes", "0"), ("text", t), ("username", u)]
                   status := 201 }, s1)
    else
      (.response { body := [("error", "Failed to create comment.")], status := 500 }, s1)

/-- Embedding of `edit_comment` (lines 275-301). When `text` is falsy, line 280 returns
`jsonify({"error": ...})` with NO explicit status code, and Flask sends such a
response with its default status 200. Otherwise the UPDATE runs; the RETURNING
row (fetched at line 291) is present exactly when a comment matches both ids,
giving the 200 echo or the 404. -/
def edit_comment (post_id comments_id : Int) (text : Option String) (s : Store) :
    HandlerOutcome × Store :=
  if !(pyTruthyStr text) then
    (.response { body := [("error", "Text fields are required")], status := 200 }, s)
  else
    let t := text.getD ""
    let s1 := { s with comments := s.comments.map (fun c =>
                  if c.post_id == post_id && c.id == comments_id then { c with text := t } else c)
                       execs := s.execs + 1 }
    match (s.comments.filter (fun c => c.post_id == post_id && c.id == comments_id)).head? with
    | some c0 =>
      (.response { body := [("id", toString c0.id), ("post_id", toString c0.post_id),
                            ("text", t), ("username", c0.username),
                            ("upvotes", toString c0.upvotes)]
                   status := 200 }, s1)
    | none =>
      (.response { body := [("error", "Comment not found")], status := 404 }, s1)

/-! ## The venmo store, the pagination calculator and `get_users` -/

structure UserRow where
  id : Int
  deleted_at : Option Int
  deriving DecidableEq

structure UsersStore where
  users : List UserRow
  execs : Nat
  deriving DecidableEq

def digitVal? (c : Char) : Option Nat :=
  if c.isDigit then some (c.toNat - 48) else none

def digitsToNatAux : List Char → Nat → Option Nat
  | [], acc => some acc
  | c :: cs, acc =>
    match digitVal? c with
    | some d => digitsToNatAux cs (acc * 10 + d)
    | none => none

def digitsToNat? : List Char → Option Nat
  | [] => none
  | cs => digitsToNatAux cs 0

/-- Python `int(str)` on a query-parameter string: surrounding whitespace is
ignored, an optional sign precedes a non-empty digit run, anything else raises
`ValueError` (modelled as `none`). -/
def pyInt? (s : String) : Option Int :=
  match (pyStrip s).data with
  | [] => none
  | '+' :: cs => (digitsToNat? cs).map Int.ofNat
  | '-' :: cs => (digitsToNat? cs).map (fun n => -(Int.ofNat n))
  | cs => (digitsToNat? cs).map Int.ofNat

/-- Embedding of `int(request.args.get(name, default))`: an absent parameter falls back to
the integer default, a present one is parsed with `int`. -/
def parseParam (raw : Option String) (dflt : Int) : Option Int :=
  match raw with
  | none => some dflt
  | some str => pyInt? str

/-- Pagination computation of `get_users` (src/venmo/src/app.py lines
95-107): parse `pageSize` (default 5) then `pageNumber` (default 1), raise
`ValueError` — caught and turned into the 400 — when a parse fails or either
value is ≤ 0, and otherwise produce `limit = page_size` and
`offset = (page_number - 1) * page_size`. -/
def compute (pageSizeRaw pageNumberRaw : Option String) : Except Unit (Int × Int) :=
  match parseParam pageSizeRaw 5 with
  | none => .error ()
  | some page_size =>
    match parseParam pageNumberRaw 1 with
    | none => .error ()
    | some page_number =>
      if page_size ≤ 0 || page_number ≤ 0 then .error ()
      else .ok (page_size, (page_number - 1) * page_size)

/-- The second `get_users` route (lines 92-129, the one that is live since it
is defined last): on invalid pagination answer 400 without touching the store;
otherwise run the LIMIT/OFFSET SELECT, and then the count statement at line
114 — whose SQL reads `SELCT COUNT(*)`, a misspelling the store rejects, so
this path always raises. -/
def get_users (pageSizeRaw pageNumberRaw : Option String) (s : UsersStore) :
    HandlerOutcome × UsersStore :=
  match compute pageSizeRaw pageNumberRaw with
  | .error () =>
    (.response { body := [("error", "Invalid pagination parameters")], status := 400 }, s)
  | .ok (limit, offset) =>
    let s1 := { s with execs := s.execs + 1 }
    let _users := ((s.users.filter (fun u => u.deleted_at.isNone)).drop offset.toNat).take
      limit.toNat
    (.raised "ProgrammingError: SELCT is not valid SQL", s1)

/-! ### Running a handler through the decorator on a fresh request -/

theorem decorated_response {σ : Type} (f : σ → HandlerOutcome × σ) (s : σ)
    (r : HttpResponse) (s1 : σ) (hf : f s = (.response r, s1)) :
    decorated_function true f s { conn := none, opened := 0 } =
      { response := r
        g := { conn := some { committed := s1, pending := s1, closed := true, closeCount := 1 }
               opened := 1 }
        cursorClosed := true } := by
  unfold decorated_function get_db_connection
  simp [PgConn.connect, hf, PgConn.commit, PgConn.close]

theorem decorated_raised {σ : Type} (f : σ → HandlerOutcome × σ) (s : σ)
    (msg : String) (s1 : σ) (hf : f s = (.raised msg, s1)) :
    decorated_function true f s { conn := none, opened := 0 } =
      { response := { body := [("error", msg)], status := 500 }
        g := { conn := some { committed := s, pending := s, closed := true, closeCount := 1 }
               opened := 1 }
        cursorClosed := true } := by
  unfold decorated_function get_db_connection
  simp [PgConn.connect, hf, PgConn.rollback, PgConn.close]

/-! ### Claims about pagination, delete, validation, edit_comment -/

/-- C3: for every pair of raw pagination inputs, `compute` parses both as
integers and fails — which `get_users` reports as a 400 — when either is
non-numeric or a parsed value is ≤ 0; on success it yields
`limit = pageSize` and `offset = (pageNumber - 1) * pageSize`; and the four
concrete examples behave as stated. -/
theorem C3_pagination_contract :
    (∀ psRaw pnRaw : String, pyInt? psRaw = none →
      compute (some psRaw) (some pnRaw) = .error ()) ∧
    (∀ psRaw pnRaw : String, pyInt? pnRaw = none →
      compute (some psRaw) (some pnRaw) = .error ()) ∧
    (∀ psRaw pnRaw : String, ∀ ps pn : Int, pyInt? psRaw = some ps →
      pyInt? pnRaw = some pn → (ps ≤ 0 ∨ pn ≤ 0) →
      compute (some psRaw) (some pnRaw) = .error ()) ∧
    (∀ psRaw pnRaw : String, ∀ ps pn : Int, pyInt? psRaw = some ps →
      pyInt? pnRaw = some pn → 0 < ps → 0 < pn →
      compute (some psRaw) (some pnRaw) = .ok (ps, (pn - 1) * ps)) ∧
    (∀ psRaw pnRaw : Option String, ∀ s : UsersStore,
      compute psRaw pnRaw = .error () →
      get_users psRaw pnRaw s =
        (.response { body := [("error", "Invalid pagination parameters")], status := 400 }, s)) ∧
    compute (some "5") (some "1") = .ok (5, 0) ∧
    compute (some "5") (some "3") = .ok (5, 10) ∧
    compute (some "0") (some "1") = .error () ∧
    compute (some "-1") (some "2") = .error () := by
  refine ⟨?_, ?_, ?_, ?_, ?_, by rfl, by rfl, by rfl, by rfl⟩
  · intro psRaw pnRaw h
    simp only [compute, parseParam, h]
  · intro psRaw pnRaw h
    simp only [compute, parseParam, h]
    cases pyInt? psRaw <;> rfl
  · intro psRaw pnRaw ps pn hps hpn h
    simp only [compute, parseParam, hps, hpn]
    rcases h with h | h <;> simp [h]
  · intro psRaw pnRaw ps pn hps hpn h1 h2
    simp only [compute, parseParam, hps, hpn]
    simp [not_le.mpr h1, not_le.mpr h2]
  · intro psRaw pnRaw s h
    unfold get_users
    rw [h]

theorem C3_witness :
    compute (some "7") (some "2") = .ok (7, (2 - 1) * 7) ∧
    compute (some "abc") (some "2") = .error () ∧
    get_users (some "0") (some "1") { users := [], execs := 0 } =
      (.response { body := [("error", "Invalid pagination parameters")], status := 400 },
        { users := [], execs := 0 }) :=
  ⟨C3_pagination_contract.2.2.2.1 "7" "2" 7 2 rfl rfl (by norm_num) (by norm_num),
   C3_pagination_contract.1 "abc" "2" rfl,
   C3_pagination_contract.2.2.2.2.1 (some "0") (some "1") { users := [], execs := 0 } (by rfl)⟩

def c4post : PostRow := { id := 3, upvotes := 0, title := "t", link := "l", username := "u" }

def c4store : Store :=
  { posts := [c4post], comments := [], nextPostId := 4, nextCommentId := 1, execs := 0 }

/-- C4 describes the intended behaviour (spec section 8, property 7), but the
code never reaches it: because line 215 hands `cursor.execute` the bare int
`(post_id)` instead of a one-tuple, psycopg2 raises a TypeError before any
statement executes, so EVERY delete request — the neither-404-nor-200 path —
is answered 500 by the session manager and the committed store keeps all its
rows (shown here both for every id and store, and at the concrete failing
input: id 3 against `c4store`, which contains a post with id 3). -/
theorem C4_delete_always_500 :
    (∀ post_id : Int, ∀ s : Store,
      delete_post post_id s = (.raised intParamsTypeMsg, s) ∧
      (decorated_function true (delete_post post_id) s { conn := none, opened := 0 }).response =
        { body := [("error", intParamsTypeMsg)], status := 500 } ∧
      ((decorated_function true (delete_post post_id) s
          { conn := none, opened := 0 }).g.conn.map (fun c => c.committed)) = some s) ∧
    (decorated_function true (delete_post 3) c4store { conn := none, opened := 0 }).response =
      { body := [("error", intParamsTypeMsg)], status := 500 } ∧
    ((decorated_function true (delete_post 3) c4store
        { conn := none, opened := 0 }).g.conn.map (fun c => c.committed.posts)) =
      some [c4post] := by
  refine ⟨?_, ?_, ?_⟩
  · intro post_id s
    refine ⟨rfl, ?_, ?_⟩ <;>
      · rw [decorated_raised (delete_post post_id) s intParamsTypeMsg s rfl]
        try rfl
  · rw [decorated_raised (delete_post 3) c4store intParamsTypeMsg c4store rfl]
  · rw [decorated_raised (delete_post 3) c4store intParamsTypeMsg c4store rfl]
    rfl

def c5store : Store :=
  { posts := [], comments := [], nextPostId := 1, nextCommentId := 1, execs := 0 }

/-- C5 fails as stated: a `create_post` request whose body lacks the required
`title` field is a validation failure, yet the service reports it with status
500, not 400 — line 136 calls `.strip()` on the `None` that `get` returned,
raising an `AttributeError` that the session manager converts to a 500. -/
theorem C5_counterexample :
    (decorated_function true (create_post none (some "bob") (some "x")) c5store
        { conn := none, opened := 0 }).response.status = 500 ∧
    (decorated_function true (create_post none (some "bob") (some "x")) c5store
        { conn := none, opened := 0 }).response.status ≠ 400 := by
  decide

/-- C5 (amended): no request that fails validation ever executes a store
statement — the committed store is exactly the original one, `execs`
included. The 400 status is produced for present-but-empty (after strip)
fields in `create_post`, for falsy `text`/`username` in `post_comment` and
for invalid pagination in `get_users`; but a missing field in `create_post`
raises and is reported as 500 by the session manager, and `edit_comment`
reports its validation failure with status 200. -/
theorem C5_validation_never_reaches_store :
    (∀ bt bu bl : Option String, ∀ s : Store,
      (bt.isNone ∨ bu.isNone ∨ bl.isNone) →
      (decorated_function true (create_post bt bu bl) s
          { conn := none, opened := 0 }).response.status = 500 ∧
      ((decorated_function true (create_post bt bu bl) s
          { conn := none, opened := 0 }).g.conn.map (fun c => c.committed)) = some s) ∧
    (∀ t u l : String, ∀ s : Store,
      (pyStrip t = "" ∨ pyStrip u = "" ∨ pyStrip l = "") →
      (decorated_function true (create_post (some t) (some u) (some l)) s
          { conn := none, opened := 0 }).response.status = 400 ∧
      ((decorated_function true (create_post (some t) (some u) (some l)) s
          { conn := none, opened := 0 }).g.conn.map (fun c => c.committed)) = some s) ∧
    (∀ text username : Option String, ∀ pid : Int, ∀ s : Store,
      (pyTruthyStr text = false ∨ pyTruthyStr username = false) →
      (decorated_function true (post_comment pid text username) s
          { conn := none, opened := 0 }).response.status = 400 ∧
      ((decorated_function true (post_comment pid text username) s
          { conn := none, opened := 0 }).g.conn.map (fun c => c.committed)) = some s) ∧
    (∀ psRaw pnRaw : Option String, ∀ s : UsersStore,
      compute psRaw pnRaw = .error () →
      (decorated_function true (get_users psRaw pnRaw) s
          { conn := none, opened := 0 }).response.status = 400 ∧
      ((decorated_function true (get_users psRaw pnRaw) s
          { conn := none, opened := 0 }).g.conn.map (fun c => c.committed)) = some s) ∧
    (∀ text : Option String, ∀ pid cid : Int, ∀ s : Store,
      pyTruthyStr text = false →
      (decorated_function true (edit_comment pid cid text) s
          { conn := none, opened := 0 }).response.status = 200 ∧
      ((decorated_function true (edit_comment pid cid text) s
          { conn := none, opened := 0 }).g.conn.map (fun c => c.committed)) = some s) := by
  refine ⟨?_, ?_, ?_, ?_, ?_⟩
  · intro bt bu bl s h
    have hf : create_post bt bu bl s = (.raised noneStripMsg, s) := by
      rcases h with h | h | h
      · rw [Option.isNone_iff_eq_none] at h
        subst h
        rfl
      · rcases bt with _ | t0
        · rfl
        · rw [Option.isNone_iff_eq_none] at h
          subst h
          rfl
      · rcases bt with _ | t0
        · rfl
        · rcases bu with _ | u0
          · rfl
          · rw [Option.isNone_iff_eq_none] at h
            subst h
            rfl
    rw [decorated_raised _ _ _ _ hf]
    exact ⟨rfl, rfl⟩
  · intro t u l s h
    have hf : create_post (some t) (some u) (some l) s =
        (.response { body := [("error", "Title, link, username are required")],
                     status := 400 }, s) := by
      rcases h with h | h | h <;> simp [create_post, h]
    rw [decorated_response _ _ _ _ hf]
    exact ⟨rfl, rfl⟩
  · intro text username pid s h
    have hf : post_comment pid text username s =
        (.response { body := [("error", "Text, or username field not provided")],
                     status := 400 }, s) := by
      rcases h with h | h <;> simp [post_comment, h]
    rw [decorated_response _ _ _ _ hf]
    exact ⟨rfl, rfl⟩
  · intro psRaw pnRaw s h
    have hf : get_users psRaw pnRaw s =
        (.response { body := [("error", "Invalid pagination parameters")],
                     status := 400 }, s) := by
      unfold get_users
      rw [h]
    rw [decorated_response _ _ _ _ hf]
    exact ⟨rfl, rfl⟩
  · intro text pid cid s h
    have hf : edit_comment pid cid text s =
        (.response { body := [("error", "Text fields are required")], status := 200 }, s) := by
      simp [edit_comment, h]
    rw [decorated_response _ _ _ _ hf]
    exact ⟨rfl, rfl⟩

theorem C5_witness :
    (decorated_function true (create_post (some "t") none (some "l")) c5store
        { conn := none, opened := 0 }).response.status = 500 ∧
    (decorated_function true (create_post (some "  ") (some "u") (some "l")) c5store
        { conn := none, opened := 0 }).response.status = 400 ∧
    (decorated_function true (post_comment 1 (some "") (some "u")) c5store
        { conn := none, opened := 0 }).response.status = 400 ∧
    (decorated_function true (get_users (some "abc") none)
        { users := [], execs := 0 } { conn := none, opened := 0 }).response.status = 400 ∧
    (decorated_function true (edit_comment 1 2 none) c5store
        { conn := none, opened := 0 }).response.status = 200 :=
  ⟨(C5_validation_never_reaches_store.1 (some "t") none (some "l") c5store
      (Or.inr (Or.inl rfl))).1,
   (C5_validation_never_reaches_store.2.1 "  " "u" "l" c5store (Or.inl (by decide))).1,
   (C5_validation_never_reaches_store.2.2.1 (some "") (some "u") 1 c5store
      (Or.inl rfl)).1,
   (C5_validation_never_reaches_store.2.2.2.1 (some "abc") none { users := [], execs := 0 }
      rfl).1,
   (C5_validation_never_reaches_store.2.2.2.2 none 1 2 c5store rfl).1⟩

/-- C10: when `edit_comment` receives a falsy `text` (absent or empty), the
service answers a JSON object whose single field is `error` — and, because
line 280 returns `jsonify(...)` with no status code, Flask's default status
200 is sent instead of the 400 every other validation path uses. -/
theorem C10_edit_comment_default_200 (text : Option String) (pid cid : Int) (s : Store)
    (h : pyTruthyStr text = false) :
    (decorated_function true (edit_comment pid cid text) s
        { conn := none, opened := 0 }).response =
      { body := [("error", "Text fields are required")], status := 200 } ∧
    (decorated_function true (edit_comment pid cid text) s
        { conn := none, opened := 0 }).response.status ≠ 400 := by
  have hf : edit_comment pid cid text s =
      (.response { body := [("error", "Text fields are required")], status := 200 }, s) := by
    simp [edit_comment, h]
  rw [decorated_response _ _ _ _ hf]
  exact ⟨rfl, by simp⟩

theorem C10_witness :
    (decorated_function true (edit_comment 1 2 (some "")) c4store
        { conn := none, opened := 0 }).response =
      { body := [("error", "Text fields are required")], status := 200 } ∧
    (decorated_function true (edit_comment 1 2 (some "")) c4store
        { conn := none, opened := 0 }).response.status ≠ 400 :=
  C10_edit_comment_default_200 (some "") 1 2 c4store rfl

end App
